import Mathlib

/-!
Shallow embedding of `src/server_code/server.py` (audio recording server).

The server is a Flask app with three routes:
* `POST /api/audio` (`receive_audio`): reads a raw PCM body from the request
  stream, saves it as `recordings/recording_<timestamp>.pcm`, and answers JSON.
* `GET /api/health` (`health_check`).
* `GET /api/recordings` (`list_recordings`): lists `*.pcm` files in the
  recordings directory sorted by modification time, newest first.

Modelling decisions:
* bytes are `Nat` (values 0..255 are irrelevant to the claims), a byte string
  is a `List Nat`;
* the underlying HTTP stream is modelled by `StreamBehavior`: either it
  yields a byte sequence (each `read(n)` call returns the next `min n`
  available bytes, an empty result meaning EOF), or the first read raises an
  exception carrying a message;
* Python floats are modelled by exact rationals (`ℚ`); `round(x, 2)` is
  modelled by round-half-to-even on the exact value;
* Python `int(s)` is modelled by `pyInt?` (ASCII whitespace trim, optional
  sign, digits with single underscores between digits);
* wall-clock time is a parameter: `receive_audio` takes the timestamp string
  used to build the filename, and the recordings directory is a list of
  file entries with name, size and modification time.
-/

namespace AudioServer

/-- Python decimal-literal body for `int()`: one or more ASCII digits, where a
single underscore may appear between two digits (`1_0` is valid, `_1`, `1_`,
`1__0` are not). -/
def validDigitSeq : List Char → Bool
  | [] => false
  | [c] => c.isDigit
  | c :: '_' :: rest => c.isDigit && validDigitSeq rest
  | c :: rest => c.isDigit && validDigitSeq rest

/-- Numeric value of a digit sequence, ignoring underscore separators. -/
def digitsValue (l : List Char) : Nat :=
  (l.filter (fun c => c != '_')).foldl (fun a c => 10 * a + (c.toNat - 48)) 0

/-- Strip leading and trailing ASCII whitespace, as Python `int()` does to
its string argument before parsing. -/
def pyTrim (s : String) : List Char :=
  ((s.toList.dropWhile Char.isWhitespace).reverse.dropWhile
    Char.isWhitespace).reverse

/-- Model of Python `int(s)` for a string argument: strip surrounding
whitespace, allow one optional `+`/`-` sign, then a valid digit sequence;
`none` models `int` raising `ValueError`. (Python additionally accepts
non-ASCII digits and whitespace, which no claim depends on.) -/
def pyInt? (s : String) : Option Int :=
  match pyTrim s with
  | '+' :: rest => if validDigitSeq rest then some (digitsValue rest) else none
  | '-' :: rest => if validDigitSeq rest then some (-(digitsValue rest : Int)) else none
  | l => if validDigitSeq l then some (digitsValue l) else none

/-- Behaviour of a byte source (`request.stream` or the raw WSGI input):
either reading works and the source holds `data` (reads return successive
chunks of it, empty chunk at EOF), or reading raises an exception whose
`str()` is `msg`. -/
inductive StreamBehavior where
  | ok (data : List Nat)
  | raises (msg : String)
deriving DecidableEq, Repr

/-- `chunk_size = 16384` from `receive_audio` (16 KiB chunks). -/
def chunk_size : Nat := 16384

/-- `max_size = 10 * 1024 * 1024` from `receive_audio` (10 MiB safety limit). -/
def max_size : Nat := 10 * 1024 * 1024

/-- The no-Content-Length read loop of `receive_audio`:
`while len(audio_data) < max_size: chunk = stream.read(chunk_size);
if not chunk: break; audio_data += chunk`. `s` is what the stream still
holds, `acc` is `audio_data`. -/
def readChunks (s acc : List Nat) : List Nat :=
  if max_size ≤ acc.length then acc
  else if s.isEmpty then acc
  else readChunks (s.drop chunk_size) (acc ++ s.take chunk_size)
termination_by s.length
decreasing_by
  rename_i h2
  simp only [List.length_drop]
  cases s with
  | nil => simp at h2
  | cons a t => simp [chunk_size]; omega

/-- Body acquisition from a working stream holding `d`, dispatching on the
declared Content-Length exactly as `receive_audio` does:
`if request.content_length and request.content_length > 0:
audio_data = stream.read(request.content_length)` else the chunk loop.
(A missing or zero Content-Length both take the chunk loop.) -/
def readFrom (cl : Option Nat) (d : List Nat) : List Nat :=
  match cl with
  | some n => if 0 < n then d.take n else readChunks d []
  | none => readChunks d []

/-- Whether `request.content_length and request.content_length > 0` is truthy. -/
def declaredPositive (cl : Option Nat) : Bool :=
  match cl with
  | some n => decide (0 < n)
  | none => false

/-- The full body-reading block of `receive_audio` (lines 74–114): primary
read from `request.stream`; on exception, one fallback read from
`environ['wsgi.input']` (absent fallback leaves `audio_data = b''`); if the
fallback also raises, return the 400 error whose message interpolates the
primary exception (`stream_error`). -/
def readAudioData (cl : Option Nat) (primary : StreamBehavior)
    (wsgi : Option StreamBehavior) : Except String (List Nat) :=
  match primary with
  | .ok d => .ok (readFrom cl d)
  | .raises e1 =>
    match wsgi with
    | none => .ok []
    | some (.ok d) => .ok (readFrom cl d)
    | some (.raises _) => .error ("Failed to read audio stream: " ++ e1)

/-- Floor of a rational. -/
def qfloor (q : ℚ) : ℤ := ⌊q⌋

/-- Round a rational to the nearest integer, ties to even: the rounding mode
of Python `round` (on the exact value; binary-float representation artifacts
are outside the model). -/
def roundHalfEven (q : ℚ) : ℤ :=
  let f : ℤ := qfloor q
  let frac : ℚ := q - (f : ℚ)
  if frac < 1/2 then f
  else if 1/2 < frac then f + 1
  else if f % 2 = 0 then f else f + 1

/-- Model of Python `round(x, 2)`. -/
def round2 (q : ℚ) : ℚ := (roundHalfEven (q * 100) : ℚ) / 100

/-- A `POST /api/audio` request: the three numeric headers (absent ⇒ the
`headers.get` default applies), the Content-Type header, the parsed
Content-Length, the behaviour of `request.stream`, and the behaviour of
`environ['wsgi.input']` (`none` models a falsy `wsgi.input`). -/
structure AudioRequest where
  sampleRatesHdr : Option String
  bitsHdr : Option String
  channelHdr : Option String
  contentType : String
  contentLength : Option Nat
  primary : StreamBehavior
  wsgiInput : Option StreamBehavior
deriving DecidableEq, Repr

/-- JSON response of `POST /api/audio`: the success payload carries the
fields of the `response` dict (`duration_seconds` as an exact rational);
`clientError` is a `status:"error"` body with HTTP 400, `serverError` with
HTTP 500. -/
inductive AudioResponse where
  | success (filename : String) (size_bytes : Nat) (duration_seconds : ℚ)
      (sample_rate bits_per_sample channels : String)
  | clientError (message : String)
  | serverError (message : String)
deriving DecidableEq, Repr

/-- HTTP status code of a response. -/
def AudioResponse.httpCode : AudioResponse → Nat
  | .success .. => 200
  | .clientError _ => 400
  | .serverError _ => 500

/-- The `status` field of the JSON body. -/
def AudioResponse.status : AudioResponse → String
  | .success .. => "success"
  | _ => "error"

/-- `receive_audio` (server.py lines 42–161). `ts` is
`datetime.now().strftime("%Y%m%d_%H%M%S")`. Returns the response together
with the file written to the recordings directory (`none` when no file is
created). Control flow follows the source: read body (with fallback);
empty body → 400 before any write; then the file is written; only after the
write are the three headers passed to `int()` — a `ValueError` there, or the
`ZeroDivisionError` when `sample_rate_int * bytes_per_sample == 0`, is
caught by the outer `except` which answers 500 with the exception text
(modelled here by a fixed message of the same shape). -/
def receive_audio (ts : String) (req : AudioRequest) :
    AudioResponse × Option (String × List Nat) :=
  match readAudioData req.contentLength req.primary req.wsgiInput with
  | .error msg => (.clientError msg, none)
  | .ok data =>
    if data.isEmpty then (.clientError "No audio data received", none)
    else
      let filename := "recording_" ++ ts ++ ".pcm"
      let sr := req.sampleRatesHdr.getD "16000"
      let bits := req.bitsHdr.getD "16"
      let ch := req.channelHdr.getD "1"
      match pyInt? sr, pyInt? bits, pyInt? ch with
      | some srI, some bI, some cI =>
        let bytes_per_sample : ℤ := (Int.fdiv bI 8) * cI
        if srI * bytes_per_sample = 0 then
          (.serverError "Server error: division by zero", some (filename, data))
        else
          (.success filename data.length
            (round2 ((data.length : ℚ) / ((srI * bytes_per_sample : ℤ) : ℚ)))
            sr bits ch,
           some (filename, data))
      | _, _, _ =>
        (.serverError "Server error: invalid literal for int() with base 10",
         some (filename, data))

/-- An entry of the recordings directory: file name, size in bytes and
modification time (seconds since the epoch, exact). -/
structure FileEntry where
  name : String
  size_bytes : Nat
  mtime : ℚ
deriving DecidableEq, Repr

/-- JSON response of `GET /api/recordings`; each listed recording is the
`FileEntry` whose `name`, `size_bytes` and `mtime` feed the `filename`,
`size_bytes` and `created` (ISO rendering of `mtime`) fields. -/
structure RecordingsResponse where
  httpCode : Nat
  status : String
  count : Nat
  recordings : List FileEntry
deriving DecidableEq, Repr

/-- Whether a file name matches the glob pattern `*.pcm`: `*` matches any
(possibly empty) character sequence, so the pattern holds exactly of names
whose character list ends with `.pcm`. -/
def pcmGlob (s : String) : Bool :=
  List.isSuffixOf ".pcm".toList s.toList

/-- Newest-first order on directory entries: `a` comes before `b` when
`a.mtime ≥ b.mtime` (the `key=os.path.getmtime, reverse=True` order). -/
def mtimeDesc (a b : FileEntry) : Prop := b.mtime ≤ a.mtime

instance : DecidableRel mtimeDesc := fun a b =>
  inferInstanceAs (Decidable (b.mtime ≤ a.mtime))

instance : IsTotal FileEntry mtimeDesc := ⟨fun a b => le_total b.mtime a.mtime⟩

instance : IsTrans FileEntry mtimeDesc :=
  ⟨fun _ _ _ h1 h2 => le_trans h2 h1⟩

/-- `list_recordings` (server.py lines 174–191): glob `*.pcm` over the
directory, sort by modification time with `reverse=True` (newest first,
Python `sorted` is stable and so is the insertion sort used here), answer
200 with `count = len(recordings)`. -/
def list_recordings (dir : List FileEntry) : RecordingsResponse :=
  let pcm := dir.filter (fun f => pcmGlob f.name)
  let sorted := List.insertionSort mtimeDesc pcm
  { httpCode := 200, status := "success", count := sorted.length,
    recordings := sorted }

/-- Exact-division duration formula as the spec words it:
`duration_seconds = byte_length / (sample_rate * channels * (bit_depth / 8))`
with real (rational) division of `bit_depth` by 8. Stated from the spec for
comparison against the source's computation, which uses `bit_depth // 8`. -/
def duration_spec (sr bits ch len : ℚ) : ℚ :=
  len / (sr * ch * (bits / 8))

/-! ## Helper lemmas -/

lemma readAudioData_of_ok (cl : Option Nat) (wsgi : Option StreamBehavior)
    (d : List Nat) : readAudioData cl (.ok d) wsgi = .ok (readFrom cl d) := rfl

lemma isEmpty_false_of_ne_nil {d : List Nat} (h : d ≠ []) : d.isEmpty = false := by
  cases d with
  | nil => exact absurd rfl h
  | cons a t => rfl

/-- Shape of `receive_audio` when the body-reading block fails (both read
paths raised). -/
lemma receive_audio_read_error_shape (ts : String) (req : AudioRequest)
    (msg : String)
    (h : readAudioData req.contentLength req.primary req.wsgiInput = .error msg) :
    receive_audio ts req = (.clientError msg, none) := by
  unfold receive_audio
  rw [h]

/-- Shape of `receive_audio` when the body-reading block yields zero bytes. -/
lemma receive_audio_empty_shape (ts : String) (req : AudioRequest)
    (h : readAudioData req.contentLength req.primary req.wsgiInput = .ok []) :
    receive_audio ts req = (.clientError "No audio data received", none) := by
  unfold receive_audio
  rw [h]
  rfl

/-- Shape of `receive_audio` when the body is non-empty and all three headers
parse with a nonzero denominator. -/
lemma receive_audio_success_shape (ts : String) (req : AudioRequest)
    (data : List Nat) (srI bI cI : ℤ)
    (hread : readAudioData req.contentLength req.primary req.wsgiInput = .ok data)
    (hne : data ≠ [])
    (hsr : pyInt? (req.sampleRatesHdr.getD "16000") = some srI)
    (hb : pyInt? (req.bitsHdr.getD "16") = some bI)
    (hc : pyInt? (req.channelHdr.getD "1") = some cI)
    (hden : srI * (Int.fdiv bI 8 * cI) ≠ 0) :
    receive_audio ts req =
      (.success ("recording_" ++ ts ++ ".pcm") data.length
        (round2 ((data.length : ℚ) / ((srI * (Int.fdiv bI 8 * cI) : ℤ) : ℚ)))
        (req.sampleRatesHdr.getD "16000") (req.bitsHdr.getD "16")
        (req.channelHdr.getD "1"),
       some ("recording_" ++ ts ++ ".pcm", data)) := by
  unfold receive_audio
  rw [hread]
  simp only [isEmpty_false_of_ne_nil hne, Bool.false_eq_true, if_false, hsr, hb, hc]
  rw [if_neg hden]

/-- Shape of `receive_audio` when the body is non-empty and some header fails
`int()` parsing: the 500 handler answers, the file having already been
written. -/
lemma receive_audio_parse_fail_shape (ts : String) (req : AudioRequest)
    (data : List Nat)
    (hread : readAudioData req.contentLength req.primary req.wsgiInput = .ok data)
    (hne : data ≠ [])
    (hbad : pyInt? (req.sampleRatesHdr.getD "16000") = none ∨
            pyInt? (req.bitsHdr.getD "16") = none ∨
            pyInt? (req.channelHdr.getD "1") = none) :
    receive_audio ts req =
      (.serverError "Server error: invalid literal for int() with base 10",
       some ("recording_" ++ ts ++ ".pcm", data)) := by
  unfold receive_audio
  rw [hread]
  simp only [isEmpty_false_of_ne_nil hne, Bool.false_eq_true, if_false]
  rcases hbad with h | h | h
  · rw [h]
  · cases hsr : pyInt? (req.sampleRatesHdr.getD "16000") with
    | none => rw [h]
    | some srI => rw [h]
  · cases hsr : pyInt? (req.sampleRatesHdr.getD "16000") with
    | none => rfl
    | some srI =>
      cases hb : pyInt? (req.bitsHdr.getD "16") with
      | none => rfl
      | some bI => rw [h]

/-- Shape of `receive_audio` when all headers parse but
`sample_rate_int * bytes_per_sample == 0`: `ZeroDivisionError`, caught as a
500, the file having already been written. -/
lemma receive_audio_zero_denom_shape (ts : String) (req : AudioRequest)
    (data : List Nat) (srI bI cI : ℤ)
    (hread : readAudioData req.contentLength req.primary req.wsgiInput = .ok data)
    (hne : data ≠ [])
    (hsr : pyInt? (req.sampleRatesHdr.getD "16000") = some srI)
    (hb : pyInt? (req.bitsHdr.getD "16") = some bI)
    (hc : pyInt? (req.channelHdr.getD "1") = some cI)
    (hden : srI * (Int.fdiv bI 8 * cI) = 0) :
    receive_audio ts req =
      (.serverError "Server error: division by zero",
       some ("recording_" ++ ts ++ ".pcm", data)) := by
  unfold receive_audio
  rw [hread]
  simp only [isEmpty_false_of_ne_nil hne, Bool.false_eq_true, if_false, hsr, hb, hc]
  rw [if_pos hden]

/-! ## Claims -/

/-- Claim C4: a `POST /api/audio` request whose body-reading procedure yields
zero bytes is answered with status `"error"` and HTTP 400, and no file is
created. -/
theorem empty_body_client_error (ts : String) (req : AudioRequest)
    (h : readAudioData req.contentLength req.primary req.wsgiInput = .ok []) :
    (receive_audio ts req).1 = .clientError "No audio data received" ∧
    (receive_audio ts req).1.httpCode = 400 ∧
    (receive_audio ts req).1.status = "error" ∧
    (receive_audio ts req).2 = none := by
  rw [receive_audio_empty_shape ts req h]
  exact ⟨rfl, rfl, rfl, rfl⟩

/-- Claim C4 witness: an empty stream with a declared Content-Length of 2
yields the 400 response and no file. -/
theorem empty_body_client_error_witness :
    (receive_audio "t"
      (AudioRequest.mk none none none "audio/pcm" (some 2) (.ok []) none)).1
      = .clientError "No audio data received" ∧
    (receive_audio "t"
      (AudioRequest.mk none none none "audio/pcm" (some 2) (.ok []) none)).2
      = none :=
  ⟨(empty_body_client_error "t"
      (AudioRequest.mk none none none "audio/pcm" (some 2) (.ok []) none) rfl).1,
   (empty_body_client_error "t"
      (AudioRequest.mk none none none "audio/pcm" (some 2) (.ok []) none) rfl).2.2.2⟩

/-- Claim C6: when the primary stream read raises with message `e1`, exactly
one fallback read from the raw WSGI input is modelled; if that fallback also
raises, the response is status `"error"`, HTTP 400, its message containing
the primary failure reason `e1`, and no file is created. -/
theorem stream_failure_fallback_then_400 (ts : String) (req : AudioRequest)
    (e1 e2 : String)
    (hp : req.primary = .raises e1)
    (hw : req.wsgiInput = some (.raises e2)) :
    (receive_audio ts req).1
      = .clientError ("Failed to read audio stream: " ++ e1) ∧
    (receive_audio ts req).1.httpCode = 400 ∧
    (receive_audio ts req).1.status = "error" ∧
    (receive_audio ts req).2 = none := by
  have hread : readAudioData req.contentLength req.primary req.wsgiInput
      = .error ("Failed to read audio stream: " ++ e1) := by
    rw [hp, hw]
    rfl
  rw [receive_audio_read_error_shape ts req _ hread]
  exact ⟨rfl, rfl, rfl, rfl⟩

/-- Claim C6 witness: both reads raising (`boom`, then `bust`) yields the 400
with the primary reason in the message. -/
theorem stream_failure_fallback_then_400_witness :
    (receive_audio "t"
      (AudioRequest.mk none none none "" (some 5) (.raises "boom")
        (some (.raises "bust")))).1
      = .clientError ("Failed to read audio stream: " ++ "boom") ∧
    (receive_audio "t"
      (AudioRequest.mk none none none "" (some 5) (.raises "boom")
        (some (.raises "bust")))).2 = none :=
  ⟨(stream_failure_fallback_then_400 "t" _ "boom" "bust" rfl rfl).1,
   (stream_failure_fallback_then_400 "t" _ "boom" "bust" rfl rfl).2.2.2⟩

/-- Claim C7: the declared Content-Type has no effect on the outcome of
`POST /api/audio` — two requests differing only in Content-Type get exactly
the same response and file write (the mismatch is only logged). -/
theorem content_type_has_no_effect (ts : String)
    (h1 h2 h3 : Option String) (ct1 ct2 : String) (cl : Option Nat)
    (p : StreamBehavior) (w : Option StreamBehavior) :
    receive_audio ts (AudioRequest.mk h1 h2 h3 ct1 cl p w)
      = receive_audio ts (AudioRequest.mk h1 h2 h3 ct2 cl p w) := rfl

/-- Claim C1 counterexample: a non-empty body whose `x-audio-sample-rates`
header is `"abc"` (which does not parse as a positive integer) is answered
with HTTP 500, not the claimed 400. -/
theorem header_parse_counterexample :
    pyInt? "abc" = none ∧
    (receive_audio "20250101_120000"
      (AudioRequest.mk (some "abc") none none "audio/pcm" (some 4)
        (.ok [1, 2, 3, 4]) none)).1.status = "error" ∧
    (receive_audio "20250101_120000"
      (AudioRequest.mk (some "abc") none none "audio/pcm" (some 4)
        (.ok [1, 2, 3, 4]) none)).1.httpCode = 500 ∧
    ¬ (receive_audio "20250101_120000"
      (AudioRequest.mk (some "abc") none none "audio/pcm" (some 4)
        (.ok [1, 2, 3, 4]) none)).1.httpCode = 400 := by decide

/-- Claim C1 (amended): with a non-empty body, a header that fails `int()`
parsing is answered status `"error"` with HTTP 500 (the generic exception
handler), and so is a parsed triple whose `sample_rate * (bits // 8) *
channels` is zero (caught `ZeroDivisionError`); neither is a 400. -/
theorem header_parse_failure_is_500 (ts : String) (req : AudioRequest)
    (data : List Nat)
    (hread : readAudioData req.contentLength req.primary req.wsgiInput
      = .ok data)
    (hne : data ≠ []) :
    ((pyInt? (req.sampleRatesHdr.getD "16000") = none ∨
      pyInt? (req.bitsHdr.getD "16") = none ∨
      pyInt? (req.channelHdr.getD "1") = none) →
        (receive_audio ts req).1.httpCode = 500 ∧
        (receive_audio ts req).1.status = "error") ∧
    (∀ srI bI cI : ℤ,
      pyInt? (req.sampleRatesHdr.getD "16000") = some srI →
      pyInt? (req.bitsHdr.getD "16") = some bI →
      pyInt? (req.channelHdr.getD "1") = some cI →
      srI * (Int.fdiv bI 8 * cI) = 0 →
        (receive_audio ts req).1.httpCode = 500 ∧
        (receive_audio ts req).1.status = "error") := by
  constructor
  · intro hbad
    rw [receive_audio_parse_fail_shape ts req data hread hne hbad]
    exact ⟨rfl, rfl⟩
  · intro srI bI cI hsr hb hc hden
    rw [receive_audio_zero_denom_shape ts req data srI bI cI hread hne hsr hb
      hc hden]
    exact ⟨rfl, rfl⟩

/-- Claim C1 (amended) witness: header `"abc"` gives a 500; headers parsing
to `0, 16, 1` (zero denominator) also give a 500. -/
theorem header_parse_failure_is_500_witness :
    ((receive_audio "t"
      (AudioRequest.mk (some "abc") none none "" (some 1) (.ok [9]) none)).1.httpCode
        = 500) ∧
    ((receive_audio "t"
      (AudioRequest.mk (some "0") none none "" (some 1) (.ok [9]) none)).1.httpCode
        = 500) :=
  ⟨((header_parse_failure_is_500 "t"
      (AudioRequest.mk (some "abc") none none "" (some 1) (.ok [9]) none)
      [9] rfl (by decide)).1 (Or.inl (by decide))).1,
   ((header_parse_failure_is_500 "t"
      (AudioRequest.mk (some "0") none none "" (some 1) (.ok [9]) none)
      [9] rfl (by decide)).2 0 16 1 (by decide) (by decide) (by decide)
      (by decide)).1⟩

/-- Claim C2 counterexample: a request with a non-empty 2-byte body whose
`x-audio-bits` header is `"sixteen"` is answered with an error (HTTP 500),
yet a new file holding the body has been created — an error outcome with a
stored file. -/
theorem error_with_file_counterexample :
    (receive_audio "t"
      (AudioRequest.mk none (some "sixteen") none "" (some 2) (.ok [7, 7])
        none)).1.status = "error" ∧
    (receive_audio "t"
      (AudioRequest.mk none (some "sixteen") none "" (some 2) (.ok [7, 7])
        none)).1.httpCode = 500 ∧
    (receive_audio "t"
      (AudioRequest.mk none (some "sixteen") none "" (some 2) (.ok [7, 7])
        none)).2 = some ("recording_t.pcm", [7, 7]) := by decide

/-- Claim C2 (amended): outcomes answered with HTTP 400 (stream-read failure
after fallback, empty body) create no file; every other outcome — success or
the post-write 500s from header parsing / zero denominator — has exactly the
newly written non-empty file. -/
theorem file_written_iff_not_client_error (ts : String) (req : AudioRequest) :
    ((receive_audio ts req).1.httpCode = 400 → (receive_audio ts req).2 = none) ∧
    (¬ (receive_audio ts req).1.httpCode = 400 →
      ∃ data, data ≠ [] ∧
        (receive_audio ts req).2 = some ("recording_" ++ ts ++ ".pcm", data)) := by
  cases h : readAudioData req.contentLength req.primary req.wsgiInput with
  | error msg =>
    rw [receive_audio_read_error_shape ts req msg h]
    exact ⟨fun _ => rfl, fun hno => absurd rfl hno⟩
  | ok data =>
    cases data with
    | nil =>
      rw [receive_audio_empty_shape ts req h]
      exact ⟨fun _ => rfl, fun hno => absurd rfl hno⟩
    | cons b bs =>
      have hne : b :: bs ≠ [] := by simp
      cases h1 : pyInt? (req.sampleRatesHdr.getD "16000") with
      | none =>
        rw [receive_audio_parse_fail_shape ts req (b :: bs) h hne (Or.inl h1)]
        exact ⟨fun hc => by simp [AudioResponse.httpCode] at hc, fun _ => ⟨b :: bs, hne, rfl⟩⟩
      | some srI =>
        cases h2 : pyInt? (req.bitsHdr.getD "16") with
        | none =>
          rw [receive_audio_parse_fail_shape ts req (b :: bs) h hne
            (Or.inr (Or.inl h2))]
          exact ⟨fun hc => by simp [AudioResponse.httpCode] at hc, fun _ => ⟨b :: bs, hne, rfl⟩⟩
        | some bI =>
          cases h3 : pyInt? (req.channelHdr.getD "1") with
          | none =>
            rw [receive_audio_parse_fail_shape ts req (b :: bs) h hne
              (Or.inr (Or.inr h3))]
            exact ⟨fun hc => by simp [AudioResponse.httpCode] at hc, fun _ => ⟨b :: bs, hne, rfl⟩⟩
          | some cI =>
            by_cases hden : srI * (Int.fdiv bI 8 * cI) = 0
            · rw [receive_audio_zero_denom_shape ts req (b :: bs) srI bI cI h
                hne h1 h2 h3 hden]
              exact ⟨fun hc => by simp [AudioResponse.httpCode] at hc, fun _ => ⟨b :: bs, hne, rfl⟩⟩
            · rw [receive_audio_success_shape ts req (b :: bs) srI bI cI h
                hne h1 h2 h3 hden]
              exact ⟨fun hc => by simp [AudioResponse.httpCode] at hc, fun _ => ⟨b :: bs, hne, rfl⟩⟩

/-- Claim C2 (amended) witness: an empty body (400) leaves no file; a normal
2-byte upload (not a 400) stores exactly that body. -/
theorem file_written_iff_not_client_error_witness :
    (receive_audio "t"
      (AudioRequest.mk none none none "" (some 2) (.ok []) none)).2 = none ∧
    ∃ data, data ≠ [] ∧
      (receive_audio "t"
        (AudioRequest.mk none none none "" (some 2) (.ok [7, 7]) none)).2
        = some ("recording_" ++ "t" ++ ".pcm", data) :=
  ⟨(file_written_iff_not_client_error "t"
      (AudioRequest.mk none none none "" (some 2) (.ok []) none)).1 rfl,
   (file_written_iff_not_client_error "t"
      (AudioRequest.mk none none none "" (some 2) (.ok [7, 7]) none)).2
      (by decide)⟩

/-- Claim C3 counterexample: for `sample_rate = 1`, `bits = 12`,
`channels = 1` and a 3-byte body, the code answers `duration_seconds = 3`
(it uses `12 // 8 = 1`), while the spec formula with exact division of bits
by 8 gives `3 / 1.5 = 2`. -/
theorem duration_exact_division_counterexample :
    (receive_audio "t"
      (AudioRequest.mk (some "1") (some "12") (some "1") "audio/pcm" (some 3)
        (.ok [0, 0, 0]) none)).1
      = .success "recording_t.pcm" 3 3 "1" "12" "1" ∧
    round2 (duration_spec 1 12 1 3) = 2 ∧ (3 : ℚ) ≠ 2 := by
  refine ⟨?_, ?_, by norm_num⟩
  · have h := receive_audio_success_shape "t"
      (AudioRequest.mk (some "1") (some "12") (some "1") "audio/pcm" (some 3)
        (.ok [0, 0, 0]) none)
      [0, 0, 0] 1 12 1 rfl (by decide) (by decide) (by decide) (by decide)
      (by decide)
    rw [h]
    show AudioResponse.success "recording_t.pcm" 3
      (round2 (((3 : ℕ) : ℚ) / ((1 * (Int.fdiv 12 8 * 1) : ℤ) : ℚ))) "1" "12" "1"
      = AudioResponse.success "recording_t.pcm" 3 3 "1" "12" "1"
    rw [show (1 * (Int.fdiv 12 8 * 1) : ℤ) = 1 by decide]
    norm_num [round2, roundHalfEven, qfloor]
  · norm_num [duration_spec, round2, roundHalfEven, qfloor]

/-- Claim C3 (amended): for an accepted upload whose three headers parse as
integers with `sample_rate * (bits // 8) * channels ≠ 0`, the
`duration_seconds` field equals
`byte_length / (sample_rate * channels * (bits // 8))` — integer floor
division of bits by 8, not exact division — rounded to 2 decimal places. -/
theorem duration_uses_integer_division (ts : String) (req : AudioRequest)
    (data : List Nat) (srI bI cI : ℤ)
    (hread : readAudioData req.contentLength req.primary req.wsgiInput
      = .ok data)
    (hne : data ≠ [])
    (hsr : pyInt? (req.sampleRatesHdr.getD "16000") = some srI)
    (hb : pyInt? (req.bitsHdr.getD "16") = some bI)
    (hc : pyInt? (req.channelHdr.getD "1") = some cI)
    (hden : srI * (Int.fdiv bI 8 * cI) ≠ 0) :
    (receive_audio ts req).1
      = .success ("recording_" ++ ts ++ ".pcm") data.length
          (round2 ((data.length : ℚ) / ((srI * cI * Int.fdiv bI 8 : ℤ) : ℚ)))
          (req.sampleRatesHdr.getD "16000") (req.bitsHdr.getD "16")
          (req.channelHdr.getD "1") := by
  rw [receive_audio_success_shape ts req data srI bI cI hread hne hsr hb hc
    hden]
  rw [show (srI * (Int.fdiv bI 8 * cI) : ℤ) = srI * cI * Int.fdiv bI 8 by ring]

/-- Claim C3 (amended) witness: 4 bytes at `sample_rate = 2`, `bits = 16`,
`channels = 1` give duration `4 / (2 * 1 * (16 // 8)) = 1.0`. -/
theorem duration_uses_integer_division_witness :
    (receive_audio "t"
      (AudioRequest.mk (some "2") (some "16") (some "1") "" (some 4)
        (.ok [0, 0, 0, 0]) none)).1
      = .success ("recording_" ++ "t" ++ ".pcm") 4
          (round2 (((4 : ℕ) : ℚ) / ((2 * 1 * Int.fdiv 16 8 : ℤ) : ℚ)))
          "2" "16" "1" ∧
    round2 (((4 : ℕ) : ℚ) / ((2 * 1 * Int.fdiv 16 8 : ℤ) : ℚ)) = 1 :=
  ⟨duration_uses_integer_division "t"
    (AudioRequest.mk (some "2") (some "16") (some "1") "" (some 4)
      (.ok [0, 0, 0, 0]) none)
    [0, 0, 0, 0] 2 16 1 rfl (by decide) (by decide) (by decide) (by decide)
    (by decide),
   by
    rw [show (2 * 1 * Int.fdiv 16 8 : ℤ) = 4 by decide]
    norm_num [round2, roundHalfEven, qfloor]⟩

/-- Claim C5: the body-reading procedure: a declared positive Content-Length
`n` reads `n` bytes from the stream (exactly `n` when the stream holds at
least `n`); with no positive declared length the 16 KiB chunk loop with its
10 MiB ceiling runs; and the outcome is a success storing exactly the
collected data for any collected size whatsoever — in particular reaching
the ceiling does not fail the request. -/
theorem body_reading_policy (cl : Option Nat) (d : List Nat) :
    (∀ n, cl = some n → 0 < n → readFrom cl d = d.take n ∧
      (n ≤ d.length → (readFrom cl d).length = n)) ∧
    (declaredPositive cl = false → readFrom cl d = readChunks d []) ∧
    (∀ (ts : String) (req : AudioRequest) (srI bI cI : ℤ),
      req.contentLength = cl → req.primary = .ok d →
      readFrom cl d ≠ [] →
      pyInt? (req.sampleRatesHdr.getD "16000") = some srI →
      pyInt? (req.bitsHdr.getD "16") = some bI →
      pyInt? (req.channelHdr.getD "1") = some cI →
      srI * (Int.fdiv bI 8 * cI) ≠ 0 →
      (receive_audio ts req).1.httpCode = 200 ∧
      (receive_audio ts req).1.status = "success" ∧
      (receive_audio ts req).2
        = some ("recording_" ++ ts ++ ".pcm", readFrom cl d)) := by
  refine ⟨?_, ?_, ?_⟩
  · intro n hcl hn
    subst hcl
    refine ⟨by simp [readFrom, hn], fun hle => ?_⟩
    simp [readFrom, hn, List.length_take]
    omega
  · intro hdp
    cases cl with
    | none => rfl
    | some n =>
      have hn : ¬ 0 < n := by simpa [declaredPositive] using hdp
      simp [readFrom, hn]
  · intro ts req srI bI cI hcl hp hne hsr hb hc hden
    have hread : readAudioData req.contentLength req.primary req.wsgiInput
        = .ok (readFrom cl d) := by
      rw [hcl, hp]
      rfl
    rw [receive_audio_success_shape ts req (readFrom cl d) srI bI cI hread hne
      hsr hb hc hden]
    exact ⟨rfl, rfl, rfl⟩

/-- Claim C5 witness: Content-Length 2 on a 3-byte stream reads the first 2
bytes; no declared length takes the chunk loop; a well-formed 2-byte upload
succeeds (HTTP 200) and stores exactly the read body. -/
theorem body_reading_policy_witness :
    readFrom (some 2) [5, 6, 7] = [5, 6, 7].take 2 ∧
    readFrom none [5, 6] = readChunks [5, 6] [] ∧
    (receive_audio "t"
      (AudioRequest.mk none none none "" (some 2) (.ok [5, 6, 7]) none)).1.httpCode
      = 200 :=
  ⟨((body_reading_policy (some 2) [5, 6, 7]).1 2 rfl (by decide)).1,
   (body_reading_policy none [5, 6]).2.1 rfl,
   ((body_reading_policy (some 2) [5, 6, 7]).2.2 "t"
      (AudioRequest.mk none none none "" (some 2) (.ok [5, 6, 7]) none)
      16000 16 1 rfl rfl (by decide) (by decide) (by decide) (by decide)
      (by decide)).1⟩

/-- Claim C8: for every state of the recordings directory, `GET
/api/recordings` answers HTTP 200 with status `"success"`, a count equal to
the number of returned entries, and entries sorted newest-first by
modification time. -/
theorem list_recordings_success_sorted (dir : List FileEntry) :
    (list_recordings dir).httpCode = 200 ∧
    (list_recordings dir).status = "success" ∧
    (list_recordings dir).count = (list_recordings dir).recordings.length ∧
    List.Pairwise mtimeDesc (list_recordings dir).recordings :=
  ⟨rfl, rfl, rfl, List.sorted_insertionSort mtimeDesc _⟩

/-- Claim C9: the chunk-accumulation loop is total (it is a terminating
function of the remaining stream, each step consuming a non-empty chunk),
and the accumulated payload is strictly below 10 MiB + 16 KiB: the loop
guard admits at most `max_size - 1` bytes before one final chunk of at most
`chunk_size` bytes is appended. -/
theorem chunk_loop_terminates_bounded (s : List Nat) :
    (readChunks s []).length < 10 * 1024 * 1024 + 16384 := by
  have main : ∀ (n : Nat) (t acc : List Nat), t.length ≤ n →
      acc.length < max_size + chunk_size →
      (readChunks t acc).length < max_size + chunk_size := by
    intro n
    induction n with
    | zero =>
      intro t acc ht hacc
      have : t = [] := List.eq_nil_of_length_eq_zero (Nat.le_zero.mp ht)
      subst this
      rw [readChunks]
      simp only [List.isEmpty_nil, if_true]
      split
      · exact hacc
      · exact hacc
    | succ n ih =>
      intro t acc ht hacc
      rw [readChunks]
      by_cases h1 : max_size ≤ acc.length
      · rw [if_pos h1]
        exact hacc
      · rw [if_neg h1]
        cases t with
        | nil =>
          simp only [List.isEmpty_nil, if_true]
          exact hacc
        | cons a t2 =>
          simp only [List.isEmpty_cons, Bool.false_eq_true, if_false]
          apply ih
          · simp only [List.length_drop, List.length_cons]
            have : t2.length + 1 ≤ n + 1 := by simpa using ht
            simp only [chunk_size]
            omega
          · simp only [List.length_append, List.length_take, List.length_cons]
            have hlt : acc.length < max_size := Nat.not_le.mp h1
            simp only [max_size, chunk_size] at hlt ⊢
            omega
  have h0 : ([] : List Nat).length < max_size + chunk_size := by
    simp [max_size, chunk_size]
  have := main s.length s [] le_rfl h0
  simpa [max_size, chunk_size] using this

/-- Claim C10: `GET /api/recordings` lists only files whose name matches the
glob `*.pcm`; any other file in the directory is excluded from both the
recordings array and the count. -/
theorem only_pcm_files_listed (dir : List FileEntry) :
    (∀ f, f ∈ (list_recordings dir).recordings → pcmGlob f.name = true) ∧
    (list_recordings dir).count
      = (dir.filter (fun f => pcmGlob f.name)).length ∧
    (∀ f, f ∈ dir → pcmGlob f.name = false →
      f ∉ (list_recordings dir).recordings) := by
  refine ⟨?_, ?_, ?_⟩
  · intro f hf
    have hmem : f ∈ dir.filter (fun f => pcmGlob f.name) :=
      (List.perm_insertionSort mtimeDesc _).mem_iff.mp hf
    exact (List.mem_filter.mp hmem).2
  · exact (List.perm_insertionSort mtimeDesc _).length_eq
  · intro f _ hnot hmem
    have hmem2 : f ∈ dir.filter (fun f => pcmGlob f.name) :=
      (List.perm_insertionSort mtimeDesc _).mem_iff.mp hmem
    have := (List.mem_filter.mp hmem2).2
    rw [hnot] at this
    exact Bool.false_ne_true this

/-- Claim C10 witness: in a directory holding `a.pcm` and `b.txt`, every
listed entry matches `*.pcm`, the count equals the filtered count, and
`b.txt` is not listed. -/
theorem only_pcm_files_listed_witness :
    pcmGlob (FileEntry.mk "a.pcm" 5 10).name = true ∧
    (list_recordings
      [FileEntry.mk "a.pcm" 5 10, FileEntry.mk "b.txt" 3 99]).count
      = ([FileEntry.mk "a.pcm" 5 10,
          FileEntry.mk "b.txt" 3 99].filter (fun f => pcmGlob f.name)).length ∧
    FileEntry.mk "b.txt" 3 99 ∉
      (list_recordings
        [FileEntry.mk "a.pcm" 5 10, FileEntry.mk "b.txt" 3 99]).recordings :=
  ⟨(only_pcm_files_listed
      [FileEntry.mk "a.pcm" 5 10, FileEntry.mk "b.txt" 3 99]).1
      (FileEntry.mk "a.pcm" 5 10) (by decide),
   (only_pcm_files_listed
      [FileEntry.mk "a.pcm" 5 10, FileEntry.mk "b.txt" 3 99]).2.1,
   (only_pcm_files_listed
      [FileEntry.mk "a.pcm" 5 10, FileEntry.mk "b.txt" 3 99]).2.2
      (FileEntry.mk "b.txt" 3 99) (by decide) (by decide)⟩

end AudioServer
